import Mathlib

/-!
Shallow embedding of the PN532 driver core (src/pn532.js): the sendCommand
listener protocol, tag-scan response parsing, block read and write command
construction and response stripping, NDEF read (TLV scan plus multi-block
retrieval), NDEF write (page splitting), the emulateSetData copy of the
latter, and the constructor wiring that starts a tag poll loop per listener.

Bytes are modelled as Nat values; a JavaScript undefined read is modelled
with Option or with an explicitly documented coercion; the settlement of a
promise is modelled by an explicit outcome type.  Each definition carries a
comment pointing at the source lines it transcribes.
-/

/-- Modelled from the spec: the NDEF TLV type byte.  The file constants.js is
not under src; section 8 of the spec fixes the value 0x03. -/
def TAG_MEM_NDEF_TLV : Nat := 0x03

/-- Modelled from the spec: the terminator TLV byte.  The file constants.js is
not under src; section 8 of the spec fixes the value 0xFE. -/
def TAG_MEM_TERMINATOR_TLV : Nat := 0xFE

/-- Modelled from the spec: opaque command opcode from constants.js (not under
src).  The spec treats chip opcodes as an opaque lookup table; no claim
depends on the numeric value. -/
def COMMAND_IN_DATA_EXCHANGE : Nat := 0x40

/-- Modelled from the spec: opaque MIFARE read sub-opcode from constants.js
(not under src); no claim depends on the numeric value. -/
def MIFARE_COMMAND_READ : Nat := 0x30

/-- Modelled from the spec: opaque MIFARE four-byte-write sub-opcode from
constants.js (not under src); no claim depends on the numeric value. -/
def MIFARE_COMMAND_WRITE_4 : Nat := 0xA2

/-- JavaScript Buffer.slice / Array.slice with already-clamped non-negative
indices: the elements at positions i with start <= i < stop. -/
def jsSlice (start stop : Nat) (l : List Nat) : List Nat :=
  (l.take stop).drop start

/-- Lowercase hexadecimal digit character for a value below 16
(0-9 then a-f), as produced by Buffer.toString with the hex encoding. -/
def hexDigitChar (d : Nat) : Char :=
  if d < 10 then Char.ofNat (48 + d) else Char.ofNat (87 + d)

/-- Two-character lowercase hexadecimal rendering of one byte. -/
def byteToHex (n : Nat) : String :=
  String.mk [hexDigitChar (n / 16 % 16), hexDigitChar (n % 16)]

/-- Transcribes the uid rendering of src/pn532.js lines 158-161:
bytes.toString(hex).match of pairs, joined with colons.  On an empty byte
list the hex string is empty, match returns null, and the join call throws;
that is the none case. -/
def uidHexRender (bytes : List Nat) : Option String :=
  if bytes.isEmpty then none
  else some (String.intercalate ":" (bytes.map byteToHex))

/-- Settlement of the promise returned by the scanTag response handler
(src/pn532.js lines 148-169).  tagFound carries the fields of the returned
tag object (ATQA slice, SAK byte which is none when read out of range, uid
string); noTag is the resolution with undefined when the tag count is not
one; threw is a TypeError escaping the handler, which rejects the promise. -/
inductive ScanOutcome where
  | tagFound (atqa : List Nat) (sak : Option Nat) (uid : String)
  | noTag
  | threw (msg : String)
deriving DecidableEq

/-- Message of the TypeError raised by calling join on the null returned by
match when the uid hex string is empty. -/
def nullJoinMsg : String := "TypeError: Cannot read properties of null (reading join)"

/-- Transcribes the scanTag response handler, src/pn532.js lines 149-169.
body[0] === 1 is get? 0 = some 1 (an out-of-range read gives undefined,
which is not strictly equal to 1).  The uid slice end 6 + body[5] becomes 0
when body[5] is undefined, because 6 + undefined is NaN and Buffer.slice
coerces a NaN index to 0. -/
def scanTagParse (body : List Nat) : ScanOutcome :=
  if body.get? 0 = some 1 then
    let uidEnd : Nat :=
      match body.get? 5 with
      | some n => 6 + n
      | none => 0
    match uidHexRender (jsSlice 6 uidEnd body) with
    | some uid => ScanOutcome.tagFound (jsSlice 2 4 body) (body.get? 4) uid
    | none => ScanOutcome.threw nullJoinMsg
  else ScanOutcome.noTag

/-- Boolean test used to state that scanTagParse did not produce a tag. -/
def isTagFound : ScanOutcome → Bool
  | ScanOutcome.tagFound _ _ _ => true
  | _ => false

/-- Options object accepted by readBlock and writeBlock: a missing property
reads as undefined (none). -/
structure BlockOptions where
  tagNumber : Option Nat
  blockAddress : Option Nat
deriving DecidableEq

/-- JavaScript short-circuit default, value || d, over number options: both
undefined (none) and the falsy number 0 select the default. -/
def jsOrDefault (v : Option Nat) (d : Nat) : Nat :=
  match v with
  | none => d
  | some x => if x = 0 then d else x

/-- Command buffer built by readBlock, src/pn532.js lines 175-185. -/
def readBlockCommand (options : BlockOptions) : List Nat :=
  [COMMAND_IN_DATA_EXCHANGE,
   jsOrDefault options.tagNumber 0x01,
   MIFARE_COMMAND_READ,
   jsOrDefault options.blockAddress 0x01]

/-- Command buffer built by writeBlock, src/pn532.js lines 268-278. -/
def writeBlockCommand (block : List Nat) (options : BlockOptions) : List Nat :=
  [COMMAND_IN_DATA_EXCHANGE,
   jsOrDefault options.tagNumber 0x01,
   MIFARE_COMMAND_WRITE_4,
   jsOrDefault options.blockAddress 0x01] ++ block

/-- Response handler of readBlock, src/pn532.js lines 188-201: a status byte
of 0x13 only emits a warning log, then body.slice(1, body.length - 1) is
returned unconditionally; the handler has no failure path. -/
def readBlockHandler (body : List Nat) : List Nat :=
  jsSlice 1 (body.length - 1) body

/-- Result of the TLV scan loop of readNdefData, src/pn532.js lines 212-237.
found carries the declared ndefLength and the ndefValueOffset; foundTruncated
is the case where the type byte matched at the last position so the length
read at blockOffset + 1 is undefined; notFound is the throw on exhaustion
(blockOffset at or past block.length); hang is the case where a skip reads an
undefined length, making the next blockOffset NaN, so the loop never
terminates (NaN is not >= block.length and never matches). -/
inductive TlvScanResult where
  | found (ndefLength ndefValueOffset : Nat)
  | foundTruncated (ndefValueOffset : Nat)
  | notFound
  | hang
deriving DecidableEq

/-- Transcribes the while loop of src/pn532.js lines 216-237.  Reads inside
the block use getD, guarded so that they only happen in range; out-of-range
reads are the foundTruncated and hang cases described on TlvScanResult. -/
def tlvScan (block : List Nat) (blockOffset : Nat) : TlvScanResult :=
  if hoff : block.length ≤ blockOffset then
    TlvScanResult.notFound
  else
    if block.getD blockOffset 0 = TAG_MEM_NDEF_TLV then
      if blockOffset + 1 < block.length then
        TlvScanResult.found (block.getD (blockOffset + 1) 0) (blockOffset + 2)
      else
        TlvScanResult.foundTruncated (blockOffset + 2)
    else
      if hlen : blockOffset + 1 < block.length then
        tlvScan block (blockOffset + 2 + block.getD (blockOffset + 1) 0)
      else
        TlvScanResult.hang
termination_by block.length - blockOffset
decreasing_by
  simp_wf
  omega

/-- Transcribes the retrieveBlock promise chain of src/pn532.js lines
245-256: starting at blockNum = 1, while blockNum <= additionalBlocks, read
the block at address 4 * (blockNum + 1) and append it.  The loop is encoded
with the remaining iteration count additionalBlocks + 1 - blockNum, which is
additionalBlocks at the initial call retrieveLoop oracle 1 additionalBlocks.
The oracle maps a block address to the block that readBlock resolves with. -/
def retrieveLoop (oracle : Nat → List Nat) : Nat → Nat → List Nat
  | _, 0 => []
  | blockNum, r + 1 =>
      oracle (4 * (blockNum + 1)) ++ retrieveLoop oracle (blockNum + 1) r

/-- Outcome of the readNdefData promise chain before the trailing catch
handler (src/pn532.js lines 207-259): ok is a fulfilled data buffer, threw is
an Error or TypeError raised inside a then callback (which rejects that
chain), hangs is the non-terminating TLV scan. -/
inductive NdefInner where
  | ok (data : List Nat)
  | threw (msg : String)
  | hangs
deriving DecidableEq

/-- Outcome of the full readNdefData call after the catch handler of
src/pn532.js lines 260-262: ok is a fulfilled data buffer; resolvedUndefined
means an error was thrown, the catch handler logged it and returned nothing,
so the promise fulfills with undefined; hangs is the non-terminating scan. -/
inductive NdefOutcome where
  | ok (data : List Nat)
  | resolvedUndefined
  | hangs
deriving DecidableEq

/-- Message of the Error thrown at src/pn532.js line 219 on TLV exhaustion. -/
def ndefTlvNotFoundMsg : String := "Unable to locate NDEF TLV (0x03) byte in block"

/-- Message of the TypeError raised at src/pn532.js line 258 when
allDataPromise is undefined, which happens whenever the retrieval IIFE body
is skipped (additionalBlocks below 1, or NaN from an undefined length). -/
def undefinedThenMsg : String := "TypeError: Cannot read properties of undefined (reading then)"

/-- Transcribes readNdefData, src/pn532.js lines 204-259, up to but not
including the trailing catch.  The first readBlock uses block address 0x04;
oracle maps each block address to the block readBlock resolves with.
ndefData starts as block.slice(ndefValueOffset); additionalBlocks is
Math.ceil((ndefValueOffset + ndefLength) / 16) - 1; when additionalBlocks is
0 the IIFE returns undefined and the call undefined.then throws a TypeError;
otherwise the accumulated buffer is sliced to ndefLength. -/
def readNdefDataInner (oracle : Nat → List Nat) : NdefInner :=
  let block := oracle 0x04
  match tlvScan block 0 with
  | TlvScanResult.notFound => NdefInner.threw ndefTlvNotFoundMsg
  | TlvScanResult.hang => NdefInner.hangs
  | TlvScanResult.foundTruncated _ => NdefInner.threw undefinedThenMsg
  | TlvScanResult.found ndefLength ndefValueOffset =>
      let ndefData := block.drop ndefValueOffset
      let additionalBlocks := (ndefValueOffset + ndefLength + 15) / 16 - 1
      if additionalBlocks = 0 then NdefInner.threw undefinedThenMsg
      else NdefInner.ok ((ndefData ++ retrieveLoop oracle 1 additionalBlocks).take ndefLength)

/-- Full readNdefData including the catch handler of src/pn532.js lines
260-262, which logs any error and returns nothing, so every thrown error
becomes a fulfillment with undefined. -/
def readNdefData (oracle : Nat → List Nat) : NdefOutcome :=
  match readNdefDataInner oracle with
  | NdefInner.ok d => NdefOutcome.ok d
  | NdefInner.threw _ => NdefOutcome.resolvedUndefined
  | NdefInner.hangs => NdefOutcome.hangs

/-- Oracle for a first block whose TLV scan exhausts the block: two NULL TLV
bytes, so the scan skips once and reaches the block length. -/
def oracleNoTlv : Nat → List Nat := fun _ => [0, 0]

/-- Oracle for the spec section 8 NDEF-decode example page: NDEF TLV, length
3, the bytes of ABC, terminator, then zero padding to 16 bytes. -/
def oracleAbc : Nat → List Nat :=
  fun _ => [0x03, 0x03, 0x41, 0x42, 0x43, 0xFE, 0, 0, 0, 0, 0, 0, 0, 0, 0, 0]

/-- Transcribes the page padding of src/pn532.js lines 318-322: a short final
page has its length set to PAGE_SIZE, and the holes are written as 0x00
bytes when the page is turned into a buffer. -/
def pad4 (page : List Nat) : List Nat :=
  if page.length < 4 then page ++ List.replicate (4 - page.length) 0 else page

/-- Transcribes the TLV block assembly of writeNdefData, src/pn532.js lines
301-306: NDEF TLV type, length of data, data, terminator TLV. -/
def ndefBlock (data : List Nat) : List Nat :=
  (TAG_MEM_NDEF_TLV :: data.length :: data) ++ [TAG_MEM_TERMINATOR_TLV]

/-- Transcribes the writeBlock promise chain of src/pn532.js lines 315-333:
while blockNum < totalBlocks, splice the next four bytes, pad, and write them
at address 0x04 + blockNum.  The loop is encoded with the remaining count
totalBlocks - blockNum, which is totalBlocks at the initial call with
blockNum = 0.  The result lists the issued writes in order as pairs of block
address and page data. -/
def writeNdefLoop : List Nat → Nat → Nat → List (Nat × List Nat)
  | _, _, 0 => []
  | block, blockNum, r + 1 =>
      (0x04 + blockNum, pad4 (block.take 4)) ::
        writeNdefLoop (block.drop 4) (blockNum + 1) r

/-- The sequence of writeBlock calls issued by writeNdefData (src/pn532.js
lines 297-337) for a given data argument: totalBlocks is
Math.ceil(block.length / PAGE_SIZE) with PAGE_SIZE = 4. -/
def writeNdefData_writes (data : List Nat) : List (Nat × List Nat) :=
  writeNdefLoop (ndefBlock data) 0 (((ndefBlock data).length + 3) / 4)

/-- Transcribes the TLV block assembly of emulateSetData, src/pn532.js lines
685-690, kept separate from ndefBlock so the two functions can be compared. -/
def emulateBlock (data : List Nat) : List Nat :=
  (TAG_MEM_NDEF_TLV :: data.length :: data) ++ [TAG_MEM_TERMINATOR_TLV]

/-- Transcribes the writeBlock promise chain of emulateSetData, src/pn532.js
lines 699-717, with the same remaining-count encoding as writeNdefLoop. -/
def emulateSetLoop : List Nat → Nat → Nat → List (Nat × List Nat)
  | _, _, 0 => []
  | block, blockNum, r + 1 =>
      (0x04 + blockNum, pad4 (block.take 4)) ::
        emulateSetLoop (block.drop 4) (blockNum + 1) r

/-- The sequence of writeBlock calls issued by emulateSetData (src/pn532.js
lines 682-722) for a given data argument. -/
def emulateSetData_writes (data : List Nat) : List (Nat × List Nat) :=
  emulateSetLoop (emulateBlock data) 0 (((emulateBlock data).length + 3) / 4)

/-- Events delivered to the request-scoped listeners of sendCommand
(src/pn532.js lines 59-85) while the request is outstanding: an AckFrame, a
NackFrame, a DataFrame with its direction byte and data body, or an error
event.  Modelled from the spec for the frame classes (frame.js is not under
src): a NackFrame is neither an AckFrame nor a DataFrame, so it falls through
both instanceof checks. -/
inductive SCEvent where
  | ackFrame
  | nackFrame
  | dataFrame (direction : Nat) (body : List Nat)
  | errorEvt (msg : String)
deriving DecidableEq

/-- Settlement state of the promise returned by sendCommand. -/
inductive SCOutcome where
  | resolved (body : List Nat)
  | rejected (msg : String)
  | pending
deriving DecidableEq

/-- State of one sendCommand request: whether the request-scoped frame and
error listeners are still registered, how many times removeListeners has run,
and the settlement of the promise. -/
structure SCState where
  listening : Bool
  removals : Nat
  outcome : SCOutcome
deriving DecidableEq

/-- Transcribes the listener pair of src/pn532.js lines 59-85.  While the
listeners are registered: an AckFrame is only logged; a NackFrame matches
neither instanceof check; a DataFrame runs removeListeners and resolves with
the frame regardless of direction and regardless of any earlier Ack; an error
event runs removeListeners and rejects.  After removeListeners the listeners
are gone, so further events do not reach this request. -/
def scStep (s : SCState) (e : SCEvent) : SCState :=
  if s.listening then
    match e with
    | SCEvent.ackFrame => s
    | SCEvent.nackFrame => s
    | SCEvent.dataFrame _ body =>
        SCState.mk false (s.removals + 1) (SCOutcome.resolved body)
    | SCEvent.errorEvt msg =>
        SCState.mk false (s.removals + 1) (SCOutcome.rejected msg)
  else s

/-- State right after sendCommand registers its listeners and writes the
command frame: listeners on, no removals, promise pending. -/
def scInit : SCState := SCState.mk true 0 SCOutcome.pending

/-- The request state after a sequence of frame and error events is delivered
to one sendCommand request. -/
def scRun (events : List SCEvent) : SCState :=
  events.foldl scStep scInit

/-- Boolean test used to state that a sendCommand promise was rejected. -/
def scOutcomeRejected : SCOutcome → Bool
  | SCOutcome.rejected _ => true
  | _ => false

/-- Transcribes the newListener hook of the constructor, src/pn532.js lines
41-53: every newListener event whose name is tag starts a fresh scanTag
polling loop (the started loop reschedules itself forever).  The result
counts the polling loops started after a sequence of newListener events. -/
def constructorTagPollLoops : List String → Nat
  | [] => 0
  | event :: rest =>
      (if event = "tag" then 1 else 0) + constructorTagPollLoops rest

/-- Slicing k elements that start right after a prefix returns the k elements
following that prefix. -/
theorem jsSlice_append (pre l : List Nat) (k : Nat) :
    jsSlice pre.length (pre.length + k) (pre ++ l) = l.take k := by
  induction pre with
  | nil => simp [jsSlice]
  | cons a pre ih =>
      simp only [jsSlice, List.cons_append, List.length_cons] at *
      rw [Nat.succ_add, List.take_succ_cons, List.drop_succ_cons]
      exact ih

/-- Once the request-scoped listeners are removed, later events leave the
request state unchanged. -/
theorem scFoldl_settled (events : List SCEvent) (s : SCState)
    (h : s.listening = false) : events.foldl scStep s = s := by
  induction events with
  | nil => rfl
  | cons e rest ih =>
      simp only [List.foldl_cons, scStep, h]
      simpa [scStep, h] using ih

/-- Invariant of the sendCommand listener pair: either the listeners are
still registered, no removal has happened and the promise is pending, or the
listeners are gone, exactly one removal has happened and the promise is
settled. -/
theorem scFoldl_inv (events : List SCEvent) (s : SCState)
    (h : (s.listening = true ∧ s.removals = 0 ∧ s.outcome = SCOutcome.pending) ∨
      (s.listening = false ∧ s.removals = 1 ∧ s.outcome ≠ SCOutcome.pending)) :
    ((events.foldl scStep s).listening = true ∧ (events.foldl scStep s).removals = 0 ∧
        (events.foldl scStep s).outcome = SCOutcome.pending) ∨
      ((events.foldl scStep s).listening = false ∧ (events.foldl scStep s).removals = 1 ∧
        (events.foldl scStep s).outcome ≠ SCOutcome.pending) := by
  induction events generalizing s with
  | nil => exact h
  | cons e rest ih =>
      rw [List.foldl_cons]
      apply ih
      rcases h with ⟨h1, h2, h3⟩ | ⟨h1, h2, h3⟩
      · cases e with
        | ackFrame => exact Or.inl ⟨by simp [scStep, h1], by simp [scStep, h1, h2], by simp [scStep, h1, h3]⟩
        | nackFrame => exact Or.inl ⟨by simp [scStep, h1], by simp [scStep, h1, h2], by simp [scStep, h1, h3]⟩
        | dataFrame d body => exact Or.inr ⟨by simp [scStep, h1], by simp [scStep, h1, h2], by simp [scStep, h1]⟩
        | errorEvt msg => exact Or.inr ⟨by simp [scStep, h1], by simp [scStep, h1, h2], by simp [scStep, h1]⟩
      · rw [show scStep s e = s by simp [scStep, h1]]
        exact Or.inr ⟨h1, h2, h3⟩

/-- Claim C1 counterexample: with a single DeviceToHost DataFrame delivered
before any AckFrame, the sendCommand request resolves successfully with that
frame body and is not rejected, contrary to the claim that it must fail. -/
theorem sendCommand_dataFirst_cx :
    (scRun [SCEvent.dataFrame 0xD5 [1, 2, 3]]).outcome = SCOutcome.resolved [1, 2, 3] ∧
      scOutcomeRejected (scRun [SCEvent.dataFrame 0xD5 [1, 2, 3]]).outcome = false := by
  constructor
  · rfl
  · rfl

/-- Claim C1, amended: for every sendCommand call, a DataFrame arriving
before any AckFrame resolves the request successfully with that frame body;
the handler never checks that an Ack was observed first and never rejects on
a Data-before-Ack ordering violation. -/
theorem sendCommand_dataFirst_resolves (d : Nat) (body : List Nat) (rest : List SCEvent) :
    (scRun (SCEvent.dataFrame d body :: rest)).outcome = SCOutcome.resolved body := by
  have hstep : scStep scInit (SCEvent.dataFrame d body)
      = SCState.mk false 1 (SCOutcome.resolved body) := rfl
  have h : scRun (SCEvent.dataFrame d body :: rest)
      = rest.foldl scStep (SCState.mk false 1 (SCOutcome.resolved body)) := by
    simp only [scRun, List.foldl_cons, hstep]
  rw [h, scFoldl_settled _ _ rfl]

/-- Claim C1 amended witness: the amended theorem evaluated at a concrete
DeviceToHost frame with no preceding Ack. -/
theorem sendCommand_dataFirst_resolves_witness :
    (scRun (SCEvent.dataFrame 0xD5 [0x4B, 0x00] :: [])).outcome = SCOutcome.resolved [0x4B, 0x00] :=
  sendCommand_dataFirst_resolves 0xD5 [0x4B, 0x00] []

/-- Claim C2 counterexample: a first block of two NULL TLV bytes exhausts the
TLV scan, yet readNdefData fulfills with undefined (the catch handler logs
the thrown error and swallows it), which is exactly the silently successful
empty result the claim rules out. -/
theorem readNdefData_tlvNotFound_cx :
    tlvScan (oracleNoTlv 0x04) 0 = TlvScanResult.notFound ∧
      readNdefData oracleNoTlv = NdefOutcome.resolvedUndefined := by
  have hscan : tlvScan (oracleNoTlv 0x04) 0 = TlvScanResult.notFound := by
    rw [tlvScan]
    norm_num [oracleNoTlv, TAG_MEM_NDEF_TLV]
    rw [tlvScan]
    norm_num
  refine ⟨hscan, ?_⟩
  simp [readNdefData, readNdefDataInner, hscan]

/-- Claim C2, amended: whenever the TLV scan of the first block exhausts the
block without finding the NDEF type byte, the handler throws the
Unable-to-locate error, aborting the read, but the trailing catch handler of
readNdefData logs it and returns nothing, so the returned promise fulfills
with undefined; the error is not surfaced to the caller. -/
theorem readNdefData_tlvNotFound_swallowed (oracle : Nat → List Nat)
    (h : tlvScan (oracle 0x04) 0 = TlvScanResult.notFound) :
    readNdefDataInner oracle = NdefInner.threw ndefTlvNotFoundMsg ∧
      readNdefData oracle = NdefOutcome.resolvedUndefined := by
  constructor
  · simp [readNdefDataInner, h]
  · simp [readNdefData, readNdefDataInner, h]

/-- Claim C2 amended witness: the amended theorem evaluated at the concrete
oracle whose first block carries no NDEF TLV. -/
theorem readNdefData_tlvNotFound_swallowed_witness :
    readNdefDataInner oracleNoTlv = NdefInner.threw ndefTlvNotFoundMsg ∧
      readNdefData oracleNoTlv = NdefOutcome.resolvedUndefined := by
  have hscan : tlvScan (oracleNoTlv 0x04) 0 = TlvScanResult.notFound := by
    rw [tlvScan]
    norm_num [oracleNoTlv, TAG_MEM_NDEF_TLV]
    rw [tlvScan]
    norm_num
  exact readNdefData_tlvNotFound_swallowed oracleNoTlv hscan

/-- Claim C6: for every response body consisting of a status byte, the memory
bytes and one trailing byte, the readBlock handler returns exactly the memory
bytes with the status byte and the trailing byte stripped; in particular a
status byte of 0x13 only produces a warning log and the stripped block is
still returned, with no failure path in the handler. -/
theorem readBlock_strips :
    (∀ (s t : Nat) (mem : List Nat), readBlockHandler ((s :: mem) ++ [t]) = mem) ∧
      (∀ (t : Nat) (mem : List Nat), readBlockHandler ((0x13 :: mem) ++ [t]) = mem) := by
  have hgen : ∀ (s t : Nat) (mem : List Nat), readBlockHandler ((s :: mem) ++ [t]) = mem := by
    intro s t mem
    show jsSlice 1 (((s :: mem) ++ [t]).length - 1) ((s :: mem) ++ [t]) = mem
    have hlen : ((s :: mem) ++ [t]).length - 1 = mem.length + 1 := by simp
    rw [hlen]
    simp only [jsSlice, List.cons_append, List.take_succ_cons, List.drop_succ_cons,
      List.drop_zero]
    exact List.take_left mem [t]
  exact ⟨hgen, fun t mem => hgen 0x13 t mem⟩

/-- Claim C7: adding two listeners for the tag event starts two independent
scan-polling loops, one per newListener event, because the constructor hook
has no single-instance tracking; this evaluates the code at the failing input
of two subscribers. -/
theorem constructor_two_tag_listeners_two_loops :
    constructorTagPollLoops ["tag", "tag"] = 2 := by decide

/-- Claim C8: over every sequence of frame and error events delivered to one
sendCommand request, the request-scoped listeners are removed exactly once
when the request settles, on the resolve path and on the reject path alike,
and zero times while the request is still pending, so no handlers leak. -/
theorem sendCommand_listener_teardown (events : List SCEvent) :
    (scRun events).removals
      = (if (scRun events).outcome = SCOutcome.pending then 0 else 1) := by
  have h := scFoldl_inv events scInit (Or.inl ⟨rfl, rfl, rfl⟩)
  rcases h with ⟨_, h2, h3⟩ | ⟨_, h2, h3⟩
  · rw [show scRun events = events.foldl scStep scInit from rfl, h2, if_pos h3]
  · rw [show scRun events = events.foldl scStep scInit from rfl, h2, if_neg h3]

/-- Closed form of the writeNdefData page loop: starting at page counter n
with r iterations remaining, the issued writes are the pages at offsets
4 * j of the current block, padded to four bytes, at the consecutive
addresses 0x04 + n + j. -/
theorem writeNdefLoop_closed (r : Nat) :
    ∀ (block : List Nat) (n : Nat),
      writeNdefLoop block n r
        = (List.range r).map (fun j => (0x04 + n + j, pad4 ((block.drop (4 * j)).take 4))) := by
  induction r with
  | zero => intro block n; simp [writeNdefLoop]
  | succ r ih =>
      intro block n
      have hfun : (fun j => (0x04 + (n + 1) + j, pad4 (((block.drop 4).drop (4 * j)).take 4)))
          = ((fun j => (0x04 + n + j, pad4 ((block.drop (4 * j)).take 4))) ∘ Nat.succ) := by
        funext j
        simp only [Function.comp_apply]
        have h1 : 0x04 + (n + 1) + j = 0x04 + n + Nat.succ j := by omega
        have h2 : (block.drop 4).drop (4 * j) = block.drop (4 * Nat.succ j) := by
          rw [List.drop_drop]
          congr 1
          omega
        rw [h1, h2]
      simp only [writeNdefLoop]
      rw [ih (block.drop 4) (n + 1), hfun, List.range_succ_eq_map, List.map_cons, List.map_map]
      simp

/-- Claim C3: writeNdefData forms the byte sequence NDEF TLV type, data
length, data, terminator; splits it into consecutive 4-byte pages, the final
short page padded with zero bytes; issues the page writes at the consecutive
block addresses starting at 0x04 in increasing order (the promise chain
awaits each write before the next, so the list order is the issue order); and
on the data AB produces exactly the two pages of the claim. -/
theorem writeNdefData_pages :
    (∀ data : List Nat,
        writeNdefData_writes data
          = (List.range (((ndefBlock data).length + 3) / 4)).map
              (fun i => (0x04 + i, pad4 (((ndefBlock data).drop (4 * i)).take 4)))) ∧
      (∀ data : List Nat,
        ndefBlock data = [TAG_MEM_NDEF_TLV, data.length] ++ data ++ [TAG_MEM_TERMINATOR_TLV]) ∧
      writeNdefData_writes [0x41, 0x42]
        = [(0x04, [0x03, 0x02, 0x41, 0x42]), (0x05, [0xFE, 0x00, 0x00, 0x00])] := by
  refine ⟨?_, ?_, ?_⟩
  · intro data
    have h := writeNdefLoop_closed (((ndefBlock data).length + 3) / 4) (ndefBlock data) 0
    simpa [writeNdefData_writes] using h
  · intro data
    simp [ndefBlock]
  · decide

/-- Claim C4: evaluating readNdefData at the failing input, a first block
holding the NDEF TLV at value offset 2 with declared length 3 (the NDEF
decode example of spec section 8, needing no additional block), shows that
the additional-block count is 0, so the retrieval IIFE returns undefined,
the call undefined.then throws a TypeError, and the catch handler swallows
it: the promise fulfills with undefined instead of the three declared
bytes. -/
theorem readNdefData_zeroAdditional_typeError :
    readNdefDataInner oracleAbc = NdefInner.threw undefinedThenMsg ∧
      readNdefData oracleAbc = NdefOutcome.resolvedUndefined := by
  have hscan : tlvScan (oracleAbc 0x04) 0 = TlvScanResult.found 0x03 2 := by
    rw [tlvScan]
    norm_num [oracleAbc, TAG_MEM_NDEF_TLV]
  constructor
  · norm_num [readNdefDataInner, hscan]
  · norm_num [readNdefData, readNdefDataInner, hscan]

/-- Claim C9: for both readBlock and writeBlock, an options value of 0 for
tagNumber or blockAddress builds the same command buffer as an absent
option; the defaulted command buffer carries 0x01 in both positions; and the
defaulting expression never yields 0, so tag number 0 and block address 0
cannot be put into a command through these operations. -/
theorem blockOptions_zero_is_default :
    (∀ b : Option Nat,
        readBlockCommand (BlockOptions.mk (some 0) b)
          = readBlockCommand (BlockOptions.mk none b)) ∧
      (∀ t : Option Nat,
        readBlockCommand (BlockOptions.mk t (some 0))
          = readBlockCommand (BlockOptions.mk t none)) ∧
      (∀ (blk : List Nat) (b : Option Nat),
        writeBlockCommand blk (BlockOptions.mk (some 0) b)
          = writeBlockCommand blk (BlockOptions.mk none b)) ∧
      (∀ (blk : List Nat) (t : Option Nat),
        writeBlockCommand blk (BlockOptions.mk t (some 0))
          = writeBlockCommand blk (BlockOptions.mk t none)) ∧
      readBlockCommand (BlockOptions.mk none none)
        = [COMMAND_IN_DATA_EXCHANGE, 0x01, MIFARE_COMMAND_READ, 0x01] ∧
      (∀ v : Option Nat, 0 < jsOrDefault v 0x01) := by
  refine ⟨?_, ?_, ?_, ?_, ?_, ?_⟩
  · intro b
    simp [readBlockCommand, jsOrDefault]
  · intro t
    simp [readBlockCommand, jsOrDefault]
  · intro blk b
    simp [writeBlockCommand, jsOrDefault]
  · intro blk t
    simp [writeBlockCommand, jsOrDefault]
  · simp [readBlockCommand, jsOrDefault]
  · intro v
    cases v with
    | none => simp [jsOrDefault]
    | some x =>
        by_cases hx : x = 0
        · simp [jsOrDefault, hx]
        · simp only [jsOrDefault, if_neg hx]
          omega

/-- The page loop of emulateSetData issues the same writes as the page loop
of writeNdefData for any block, counter and remaining count. -/
theorem emulateLoop_eq_writeLoop (r : Nat) :
    ∀ (block : List Nat) (n : Nat), emulateSetLoop block n r = writeNdefLoop block n r := by
  induction r with
  | zero => intro block n; rfl
  | succ r ih =>
      intro block n
      simp [emulateSetLoop, writeNdefLoop, ih]

/-- Claim C10: for every data argument, emulateSetData issues exactly the
same sequence of writeBlock calls as writeNdefData, the same page contents at
the same block addresses in the same order (and both return the final
promise of that chain, which fulfills with undefined in both). -/
theorem emulateSetData_eq_writeNdefData (data : List Nat) :
    emulateSetData_writes data = writeNdefData_writes data := by
  simp [emulateSetData_writes, writeNdefData_writes, emulateBlock, ndefBlock,
    emulateLoop_eq_writeLoop]

/-- Claim C5 counterexample: the body 1, 1, 0x00, 0x04, 0x08, 0 has tag
count 1, yet scanTagParse does not return a tag: the uid slice is empty, so
the hex-pair match returns null and the join call throws a TypeError,
rejecting the scan promise. -/
theorem scanTag_zeroUid_cx :
    (([1, 1, 0, 4, 8, 0] : List Nat).get? 0 = some 1) ∧
      isTagFound (scanTagParse [1, 1, 0, 4, 8, 0]) = false ∧
      scanTagParse [1, 1, 0, 4, 8, 0] = ScanOutcome.threw nullJoinMsg := by
  refine ⟨rfl, ?_, ?_⟩ <;> decide

/-- Claim C5, amended: scanTag returns a tag exactly when the body has tag
count 1 and a uid length byte of at least 1, with ATQA the two bytes at
indices 2 and 3, SAK the byte at index 4, and uid the declared uid bytes from
index 6 rendered as colon-separated lowercase hex; when the tag count byte is
anything other than 1 the call resolves without a tag and without error.
When the tag count is 1 but the uid slice is empty the call rejects with a
TypeError instead (see the counterexample). -/
theorem scanTag_parse :
    (∀ (t a1 a2 sak uidLen : Nat) (uid rest : List Nat),
        uid.length = uidLen → 1 ≤ uidLen →
        scanTagParse (1 :: t :: a1 :: a2 :: sak :: uidLen :: (uid ++ rest))
          = ScanOutcome.tagFound [a1, a2] (some sak)
              (String.intercalate ":" (uid.map byteToHex))) ∧
      (∀ body : List Nat, body.get? 0 ≠ some 1 → scanTagParse body = ScanOutcome.noTag) := by
  constructor
  · intro t a1 a2 sak uidLen uid rest hlen hpos
    have h6 : ([1, t, a1, a2, sak, uidLen] : List Nat).length = 6 := by simp
    have hslice : jsSlice 6 (6 + uidLen) (1 :: t :: a1 :: a2 :: sak :: uidLen :: (uid ++ rest))
        = uid := by
      calc jsSlice 6 (6 + uidLen) ([1, t, a1, a2, sak, uidLen] ++ (uid ++ rest))
          = (uid ++ rest).take uidLen := by
            rw [show (6 : Nat) = ([1, t, a1, a2, sak, uidLen] : List Nat).length from h6.symm]
            exact jsSlice_append [1, t, a1, a2, sak, uidLen] (uid ++ rest) uidLen
        _ = uid := by rw [← hlen]; exact List.take_left uid rest
    have hatqa : jsSlice 2 4 (1 :: t :: a1 :: a2 :: sak :: uidLen :: (uid ++ rest))
        = [a1, a2] := by
      have h := jsSlice_append [1, t] (a1 :: a2 :: sak :: uidLen :: (uid ++ rest)) 2
      simpa using h
    have huid : uid.isEmpty = false := by
      cases uid with
      | nil => simp at hlen; omega
      | cons u us => rfl
    simp only [scanTagParse, List.get?, hslice, hatqa, uidHexRender, huid,
      Bool.false_eq_true, if_false, if_true]
  · intro body h
    simp only [scanTagParse]
    rw [if_neg h]

/-- Claim C5 amended witness: the amended theorem applied to the concrete
example body of the claim, and to a body with tag count 2. -/
theorem scanTag_parse_witness :
    scanTagParse [1, 1, 0x00, 0x04, 0x08, 4, 0xDE, 0xAD, 0xBE, 0xEF]
        = ScanOutcome.tagFound [0x00, 0x04] (some 0x08) "de:ad:be:ef" ∧
      scanTagParse [2, 0] = ScanOutcome.noTag := by
  constructor
  · have h := scanTag_parse.1 1 0x00 0x04 0x08 4 [0xDE, 0xAD, 0xBE, 0xEF] [] rfl (by omega)
    simp only [List.append_nil] at h
    rw [h]
    decide
  · exact scanTag_parse.2 [2, 0] (by decide)
